import Mathlib

/-!
Shallow embedding of the search-collect-validate-rank pipeline of
`app.py` (Smart Shopping Bot, version 25.1).

Modelling conventions:
* Python floats (prices, currency rates) are modelled as exact rationals `ℚ`.
* Python strings are Lean `String`s; `str.strip()`, `str.upper()`,
  `str.capitalize()`, slicing and `urlparse` are modelled by the character
  list functions `pyStrip`, `pyUpper`, `pyCapitalize`, `pyTake`, `netlocOf`
  below (whitespace is ASCII whitespace); `len` on a string is
  `String.length` (both count characters).
* Every external effect (the SerpApi search call, the page fetch performed by
  `_deep_scrape_content`, and the three Gemini calls) is abstracted into an
  environment `Env` supplying the outcome of each external call; `.error`
  models the call raising an exception.  The module-level `genai` global
  (which is `None` when the Gemini SDK is missing or misconfigured) is the
  boolean `Env.genai`.
* Functions that can raise an exception to their caller return
  `Except PyExc _`.  All helper functions of the source catch their own
  exceptions, so the only exception that can escape into
  `SmartShoppingBot.search` is the `TypeError` produced when the worker
  threads invoke `_get_ai_analysis` with three positional arguments
  (`executor.submit(_get_ai_analysis, c, original_query, errors_list)` at the
  judging fan-out) even though that function is defined with exactly two
  parameters.
* Thread pools (`ThreadPoolExecutor`, `as_completed`) are modelled by
  processing tasks in submission order; none of the verified properties
  depends on completion order.
* Leading underscores of the Python helper names are dropped
  (`_enhance_query` becomes `enhance_query`, etc.).
-/

/-- Field-for-field model of the `ProductResult` dataclass. -/
structure ProductResult where
  name : String
  store : String
  url : String
  image_url : String := ""
  price_in_usd : ℚ := 0
  original_price : ℚ := 0
  original_currency : String := "USD"
  relevance_score : Int := 0
  price_accuracy_score : Int := 0
  reasoning : String := ""
  is_alternative_suggestion : Bool := false
  deriving DecidableEq, Repr

/-- Field-for-field model of the `SearchCandidate` dataclass. -/
structure SearchCandidate where
  url : String
  title : String := ""
  snippet : String := ""
  deriving DecidableEq, Repr

/-- The dict returned by `_deep_scrape_content`
(keys `title`, `image`, `text_content`, `url`). -/
structure ScrapedData where
  title : String
  image : String
  text_content : String
  url : String
  deriving DecidableEq, Repr

/-- The parsed page content the fetch transport would deliver on a fully
successful `requests.get` + BeautifulSoup pass (title, og:image resolved
against the page URL, and the whitespace-collapsed visible text before the
2500-character cap is applied). -/
structure FetchedPage where
  title : String
  image : String
  text_content : String
  deriving DecidableEq, Repr

/-- One organic/shopping hit of the SerpApi response; `link = ""` models a
hit whose `link` key is missing or falsy. -/
structure RawHit where
  link : String
  title : String := ""
  snippet : String := ""
  deriving DecidableEq, Repr

/-- One object of the JSON array returned by the pre-validation Gemini call
(keys `index` and `is_likely_product_page`). -/
structure PrefilterEntry where
  index : Nat
  is_likely_product_page : Bool
  deriving DecidableEq, Repr

/-- A judge verdict whose required keys all parsed with the right types
(the shape `_get_ai_analysis` validates before returning). -/
structure Analysis where
  price : ℚ
  currency : String
  relevance_score : Int
  price_accuracy_score : Int
  is_usa_centric : Bool
  reasoning : String := ""
  deriving DecidableEq, Repr

/-- The loosely-typed JSON object parsed from the judge's raw response;
each key may be absent. -/
structure RawAnalysis where
  price : Option ℚ := none
  currency : Option String := none
  relevance_score : Option Int := none
  price_accuracy_score : Option Int := none
  is_usa_centric : Option Bool := none
  reasoning : Option String := none
  deriving DecidableEq, Repr

/-- The Python exceptions that can reach `SmartShoppingBot.search`'s
outermost `try`.  Every helper swallows its own exceptions, so the only
escaping exception is the arity `TypeError` of the judging fan-out. -/
inductive PyExc where
  | typeError
  deriving DecidableEq, Repr

/-- Outcomes of all external calls made during one search run.  `.error`
means the call raised (timeout, quota exhaustion, malformed JSON, ...). -/
structure Env where
  /-- whether the `genai` module-level global is configured (non-`None`). -/
  genai : Bool
  /-- Gemini call of `_enhance_query`, keyed by the text being enhanced. -/
  enhanceCall : String → Except Unit String
  /-- Gemini call of `_get_fallback_query`, keyed by the original query. -/
  fallbackCall : String → Except Unit String
  /-- Gemini call + JSON parse of `_pre_filter_candidates_with_ai`. -/
  prefilterCall : String → List SearchCandidate → Except Unit (List PrefilterEntry)
  /-- SerpApi call of `_run_search_task`, keyed by `(query, engine, start)`. -/
  searchCall : String → String → Nat → Except Unit (List RawHit)
  /-- fetch + parse of `_deep_scrape_content`; `none` models any exception. -/
  scrapeCall : String → Option FetchedPage
  /-- Gemini call + JSON parse of `_get_ai_analysis`. -/
  judgeCall : ScrapedData → String → Except Unit RawAnalysis

/-- Python `str.strip()`: drop leading and trailing whitespace. -/
def pyStrip (s : String) : String :=
  ⟨((s.data.dropWhile Char.isWhitespace).reverse.dropWhile Char.isWhitespace).reverse⟩

/-- Python `str.upper()` (for the ASCII currency codes involved). -/
def pyUpper (s : String) : String := ⟨s.data.map Char.toUpper⟩

/-- Python slicing `s[:n]` (by characters). -/
def pyTake (s : String) (n : Nat) : String := ⟨s.data.take n⟩

/-- Python `str.capitalize()`: first character uppercased, rest lowercased. -/
def pyCapitalize (s : String) : String :=
  match s.data with
  | [] => ""
  | c :: rest => ⟨c.toUpper :: rest.map Char.toLower⟩

/-- Python `str.replace('www.', '')`: remove every (non-overlapping,
left-to-right) occurrence of `"www."`. -/
def replaceWWW : List Char → List Char
  | 'w' :: 'w' :: 'w' :: '.' :: rest => replaceWWW rest
  | c :: rest => c :: replaceWWW rest
  | [] => []

/-- The characters following the first `"//"`, if any. -/
def afterSchemeSep : List Char → Option (List Char)
  | '/' :: '/' :: rest => some rest
  | _ :: rest => afterSchemeSep rest
  | [] => none

/-- `urlparse(url).netloc` for the usual `scheme://host/path` shape (an URL
without `"//"` has an empty netloc, as in `urlparse`). -/
def netlocOf (url : String) : String :=
  match afterSchemeSep url.data with
  | some rest => ⟨rest.takeWhile (fun c => c ≠ '/')⟩
  | none => ""

/-- `urlparse(candidate_data['url']).netloc.replace('www.', '').split('.')[0].capitalize()`. -/
def storeOf (url : String) : String :=
  pyCapitalize ⟨(replaceWWW (netlocOf url).data).takeWhile (fun c => c ≠ '.')⟩

/-- `CURRENCY_RATES_TO_USD = {"USD": 1.0, "DOP": 0.017, "MXN": 0.054,
"CAD": 0.73, "EUR": 1.08, "GBP": 1.27}`. -/
def CURRENCY_RATES_TO_USD : List (String × ℚ) :=
  [("USD", 1.0), ("DOP", 0.017), ("MXN", 0.054),
   ("CAD", 0.73), ("EUR", 1.08), ("GBP", 1.27)]

/-- `_deep_scrape_content`: a failed fetch/parse yields the sentinel dict
`{'title': 'N/A', 'image': '', 'text_content': '', 'url': url}` instead of
raising; a successful one caps `text_content` at 2500 characters and echoes
the requested `url`. -/
def deep_scrape_content (env : Env) (url : String) : ScrapedData :=
  match env.scrapeCall url with
  | some page =>
      { title := page.title, image := page.image,
        text_content := pyTake page.text_content 2500, url := url }
  | none => { title := "N/A", image := "", text_content := "", url := url }

/-- `_enhance_query`: returns the text unchanged when `genai` is missing,
the text is empty, or the Gemini call raises; otherwise the stripped
response text. -/
def enhance_query (env : Env) (text : String) : String :=
  if ¬ env.genai ∨ text = "" then text
  else
    match env.enhanceCall text with
    | .ok response_text => pyStrip response_text
    | .error _ => text

/-- `_get_fallback_query`: `None` when `genai` is missing or the Gemini call
raises; otherwise the stripped response text. -/
def get_fallback_query (env : Env) (original_query : String) : Option String :=
  if ¬ env.genai then none
  else
    match env.fallbackCall original_query with
    | .ok response_text => some (pyStrip response_text)
    | .error _ => none

/-- `_pre_filter_candidates_with_ai`: returns `[]` when `genai` is missing or
there are no candidates; on a Gemini/JSON failure it returns the candidates
unfiltered; otherwise it keeps the candidates whose index appears in the
set of indices judged likely product pages.  The Python `set` iteration
order is modelled by first-occurrence order (`List.dedup`). -/
def pre_filter_candidates_with_ai (env : Env) (candidates : List SearchCandidate)
    (original_query : String) : List SearchCandidate :=
  if ¬ env.genai ∨ candidates = [] then []
  else
    match env.prefilterCall original_query candidates with
    | .ok results =>
        let valid_indices :=
          ((results.filter (fun res => res.is_likely_product_page)).map
            (fun res => res.index)).dedup
        (valid_indices.filter (fun i => i < candidates.length)).filterMap
          (fun i => candidates[i]?)
    | .error _ => candidates

/-- `_get_ai_analysis` (two parameters: `candidate`, `original_query`):
`None` when `genai` is missing, the page text is empty, the Gemini call
raises, or any required key is missing; otherwise the typed verdict. -/
def get_ai_analysis (env : Env) (candidate : ScrapedData) (original_query : String) :
    Option Analysis :=
  if ¬ env.genai ∨ candidate.text_content = "" then none
  else
    match env.judgeCall candidate original_query with
    | .error _ => none
    | .ok a =>
      match a.price, a.currency, a.relevance_score, a.price_accuracy_score,
          a.is_usa_centric with
      | some price, some currency, some rel, some acc, some usa =>
          some { price := price, currency := currency, relevance_score := rel,
                 price_accuracy_score := acc, is_usa_centric := usa,
                 reasoning := a.reasoning.getD "" }
      | _, _, _, _, _ => none

/-- Configuration set up by `SmartShoppingBot.__init__`. -/
structure SmartShoppingBot where
  serpapi_key : String
  HIGH_PRIORITY_STORES : List String
  BLACKLISTED_DOMAINS : List String
  SEARCH_DEPTH_PAGES : Nat
  TOP_N_CANDIDATES_TO_VALIDATE : Nat
  MAX_RESULTS_TO_RETURN : Nat
  MINIMUM_RESULTS_TARGET : Nat
  RELEVANCE_THRESHOLD : Int
  PRICE_ACCURACY_THRESHOLD : Int
  deriving DecidableEq, Repr

/-- `SmartShoppingBot.__init__(serpapi_key)` with its hardcoded
configuration values. -/
def SmartShoppingBot.make (serpapi_key : String) : SmartShoppingBot :=
  { serpapi_key := serpapi_key
    HIGH_PRIORITY_STORES :=
      ["amazon.com", "walmart.com", "ebay.com", "target.com", "homedepot.com",
       "lowes.com", "grainger.com", "uline.com", "zoro.com", "mscdirect.com",
       "newegg.com", "bhphotovideo.com"]
    BLACKLISTED_DOMAINS := ["pinterest.com", "youtube.com", "wikipedia.org", "facebook.com"]
    SEARCH_DEPTH_PAGES := 3
    TOP_N_CANDIDATES_TO_VALIDATE := 50
    MAX_RESULTS_TO_RETURN := 30
    MINIMUM_RESULTS_TARGET := 10
    RELEVANCE_THRESHOLD := 5
    PRICE_ACCURACY_THRESHOLD := 6 }

/-- One search task of `_collect_candidates`'s fan-out. -/
structure SearchTask where
  query : String
  engine : String
  start : Nat
  deriving DecidableEq, Repr

/-- `SmartShoppingBot._run_search_task`: maps each hit with a truthy `link`
to a `SearchCandidate`; a failed SerpApi call yields `[]`. -/
def SmartShoppingBot.run_search_task (env : Env) (query : String) (engine : String)
    (start : Nat) : List SearchCandidate :=
  match env.searchCall query engine start with
  | .ok results =>
      results.filterMap (fun item =>
        if item.link = "" then none
        else some { url := item.link, title := item.title, snippet := item.snippet })
  | .error _ => []

/-- The `seen_urls` comprehension of `_collect_candidates`: keep a candidate
when its `url` has not been seen yet, recording it as seen. -/
def dedupByUrl : List SearchCandidate → List String → List SearchCandidate
  | [], _seen => []
  | p :: rest, seen =>
    if p.url ∈ seen then dedupByUrl rest seen
    else p :: dedupByUrl rest (p.url :: seen)

/-- `SmartShoppingBot._collect_candidates`: one site-restricted query over
the priority stores, `SEARCH_DEPTH_PAGES` paginated organic queries, and one
shopping query; the merged hits are deduplicated by exact URL.  Task results
are merged in submission order (`as_completed` order is abstracted; no
verified property depends on it). -/
def SmartShoppingBot.collect_candidates (env : Env) (bot : SmartShoppingBot)
    (base_query : String) (original_query : String) : List SearchCandidate :=
  let store_query_part :=
    String.intercalate " OR " (bot.HIGH_PRIORITY_STORES.map (fun store => "site:" ++ store))
  let store_query := "(" ++ store_query_part ++ ") \"" ++ original_query ++ "\""
  let tasks : List SearchTask :=
    { query := store_query, engine := "google", start := 0 } ::
      ((List.range bot.SEARCH_DEPTH_PAGES).map
        (fun i => { query := base_query, engine := "google", start := i * 10 })) ++
      [{ query := base_query, engine := "google_shopping", start := 0 }]
  let all_candidates :=
    (tasks.map (fun t => SmartShoppingBot.run_search_task env t.query t.engine t.start)).flatten
  dedupByUrl all_candidates []

/-- The acceptance body of `_scrape_and_validate_candidates`'s judging loop:
threshold checks, currency-rate lookup (`if rate:` also rejects a zero
rate), the USD conversion, the 0.50 price floor, and construction of the
`ProductResult`. -/
def processVerdict (bot : SmartShoppingBot) (candidate_data : ScrapedData)
    (analysis : Option Analysis) (is_fallback : Bool) : Option ProductResult :=
  match analysis with
  | none => none
  | some a =>
    if a.is_usa_centric ∧ bot.RELEVANCE_THRESHOLD ≤ a.relevance_score ∧
        bot.PRICE_ACCURACY_THRESHOLD ≤ a.price_accuracy_score then
      match CURRENCY_RATES_TO_USD.lookup (pyUpper a.currency) with
      | none => none
      | some rate =>
        if rate = 0 then none
        else
          if (0.50 : ℚ) ≤ a.price * rate then
            some { name := candidate_data.title
                   store := storeOf candidate_data.url
                   url := candidate_data.url
                   image_url := candidate_data.image
                   price_in_usd := a.price * rate
                   original_price := a.price
                   original_currency := pyUpper a.currency
                   relevance_score := a.relevance_score
                   price_accuracy_score := a.price_accuracy_score
                   reasoning := a.reasoning
                   is_alternative_suggestion := is_fallback }
          else none
    else none

/-- The result delivered by each judging future.  The source submits
`executor.submit(_get_ai_analysis, c, original_query, errors_list)` — three
positional arguments — but `_get_ai_analysis(candidate, original_query)` is
defined with exactly two parameters, so the worker's invocation raises
`TypeError` and `future.result()` re-raises it in the judging loop. -/
def judgeFuture (_env : Env) (_candidate : ScrapedData) (_original_query : String)
    (_errors_list : List String) : Except PyExc (Option Analysis) :=
  .error .typeError

/-- The `as_completed` judging loop of `_scrape_and_validate_candidates`:
collects accepted `ProductResult`s; the first `future.result()` that raises
propagates the exception. -/
def judgeAll (env : Env) (bot : SmartShoppingBot) (original_query : String)
    (errors_list : List String) (is_fallback : Bool) :
    List ScrapedData → Except PyExc (List ProductResult)
  | [] => .ok []
  | c :: rest =>
    match judgeFuture env c original_query errors_list with
    | .error e => .error e
    | .ok analysis =>
      match judgeAll env bot original_query errors_list is_fallback rest with
      | .error e => .error e
      | .ok products =>
        match processVerdict bot c analysis is_fallback with
        | some p => .ok (p :: products)
        | none => .ok products

/-- `candidates_for_judgement`: the scraped pages whose `text_content` is
non-empty and longer than 50 characters. -/
def eligibleForJudgement (env : Env) (candidate_urls : List SearchCandidate) :
    List ScrapedData :=
  ((candidate_urls.map (fun c => deep_scrape_content env c.url)).filter
    (fun c => decide (c.text_content ≠ "") && decide (50 < c.text_content.length)))

/-- `SmartShoppingBot._scrape_and_validate_candidates`: `[]` for an empty
candidate list; otherwise scrape all URLs, keep the pages with usable text,
and run the judging fan-out. -/
def SmartShoppingBot.scrape_and_validate_candidates (env : Env) (bot : SmartShoppingBot)
    (candidate_urls : List SearchCandidate) (original_query : String)
    (errors_list : List String) (is_fallback : Bool) :
    Except PyExc (List ProductResult) :=
  if candidate_urls = [] then .ok []
  else judgeAll env bot original_query errors_list is_fallback
    (eligibleForJudgement env candidate_urls)

/-- The warning inserted at the front of `errors_list` when the fallback
pass produces offers. -/
def fallbackWarningMsg : String :=
  "No encontramos resultados exactos, pero aquí hay algunas opciones similares."

/-- The single generic warning produced by `search`'s outermost handler. -/
def serverErrorMsg : String := "Ocurrió un error inesperado en el servidor."

/-- `original_query = query.strip() if query else "product from image"`:
an absent or empty query is replaced by the sentinel text, a non-empty one
is stripped. -/
def originalQuery (query : Option String) : String :=
  match query with
  | some s => if s = "" then "product from image" else pyStrip s
  | none => "product from image"

/-- Stable insertion into a price-ascending list (helper of
`sortByPrice`). -/
def insertByPrice (p : ProductResult) : List ProductResult → List ProductResult
  | [] => [p]
  | q :: rest =>
    if q.price_in_usd ≤ p.price_in_usd then q :: insertByPrice p rest
    else p :: q :: rest

/-- `final_results.sort(key=lambda p: p.price_in_usd)`: a stable
price-ascending sort. -/
def sortByPrice : List ProductResult → List ProductResult
  | [] => []
  | p :: rest => insertByPrice p (sortByPrice rest)

/-- The fallback block of `search` (lines 245–253): derive a broadened
query; when it is present and non-empty, rerun collect → pre-filter →
scrape-and-validate with `is_fallback=True`, and prepend the explanatory
warning when that yields offers.  `errors_list` is the list built so far
(nothing has appended to it at this point of the source). -/
def fallbackStep (env : Env) (bot : SmartShoppingBot) (original_query : String)
    (errors_list : List String) : Except PyExc (List ProductResult × List String) :=
  match get_fallback_query env original_query with
  | none => .ok ([], errors_list)
  | some fallback_query =>
    if fallback_query = "" then .ok ([], errors_list)
    else
      match SmartShoppingBot.scrape_and_validate_candidates env bot
          (pre_filter_candidates_with_ai env
            (SmartShoppingBot.collect_candidates env bot fallback_query fallback_query)
            original_query)
          original_query errors_list true with
      | .error e => .error e
      | .ok final_results =>
        if final_results = [] then .ok (final_results, errors_list)
        else .ok (final_results, fallbackWarningMsg :: errors_list)

/-- The body of `SmartShoppingBot.search` inside its outermost `try`;
`.error` is an exception reaching the `except Exception` handler.
`errors_list` starts empty and nothing appends to it before the fallback
block, so the intermediate lists are the literal `[]`. -/
def searchBody (env : Env) (bot : SmartShoppingBot) (query : Option String)
    (_image_content : Option (List Nat)) :
    Except PyExc (List ProductResult × List String) :=
  if originalQuery query = "" then
    .ok ([], ["Por favor, introduce un término de búsqueda."])
  else if enhance_query env (originalQuery query) = "" then
    .ok ([], ["No se pudo generar una consulta válida."])
  else
    match SmartShoppingBot.scrape_and_validate_candidates env bot
        (pre_filter_candidates_with_ai env
          (SmartShoppingBot.collect_candidates env bot
            (enhance_query env (originalQuery query)) (originalQuery query))
          (originalQuery query))
        (originalQuery query) [] false with
    | .error e => .error e
    | .ok primary =>
      match (if primary = [] then fallbackStep env bot (originalQuery query) []
             else .ok (primary, [])) with
      | .error e => .error e
      | .ok (final_results, errors2) =>
        if final_results = [] then .ok ([], errors2)
        else .ok ((sortByPrice final_results).take bot.MAX_RESULTS_TO_RETURN, errors2)

/-- `SmartShoppingBot.search`: the outermost `try/except` converts any
escaping exception into `([], [serverErrorMsg])`; totality of this function
is the no-raise guarantee towards the caller. -/
def SmartShoppingBot.search (env : Env) (bot : SmartShoppingBot) (query : Option String)
    (image_content : Option (List Nat)) : List ProductResult × List String :=
  match searchBody env bot query image_content with
  | .ok r => r
  | .error _ => ([], [serverErrorMsg])

/-!
Characterization lemmas.  Because every judging future raises the arity
`TypeError`, `_scrape_and_validate_candidates` either returns `[]` (when no
scraped page has usable text) or raises; this section derives the exact
observable behaviour of `search` from that fact.
-/

/-- The scraped pages of the primary pass that enter the judging phase. -/
def primaryJudgedList (env : Env) (bot : SmartShoppingBot) (oq : String) :
    List ScrapedData :=
  eligibleForJudgement env
    (pre_filter_candidates_with_ai env
      (SmartShoppingBot.collect_candidates env bot (enhance_query env oq) oq) oq)

/-- The scraped pages of the fallback pass that enter the judging phase
(empty when no usable fallback query is produced). -/
def fallbackJudgedList (env : Env) (bot : SmartShoppingBot) (oq : String) :
    List ScrapedData :=
  match get_fallback_query env oq with
  | none => []
  | some fallback_query =>
    if fallback_query = "" then []
    else
      eligibleForJudgement env
        (pre_filter_candidates_with_ai env
          (SmartShoppingBot.collect_candidates env bot fallback_query fallback_query) oq)

theorem judgeAll_nil (env : Env) (bot : SmartShoppingBot) (oq : String)
    (errs : List String) (fb : Bool) : judgeAll env bot oq errs fb [] = .ok [] := rfl

theorem judgeAll_cons (env : Env) (bot : SmartShoppingBot) (oq : String)
    (errs : List String) (fb : Bool) (c : ScrapedData) (l : List ScrapedData) :
    judgeAll env bot oq errs fb (c :: l) = .error .typeError := rfl

/-- `_scrape_and_validate_candidates` returns `[]` exactly when no scraped
candidate is eligible for judgement, and otherwise raises the arity
`TypeError`. -/
theorem scrape_and_validate_characterization (env : Env) (bot : SmartShoppingBot)
    (cands : List SearchCandidate) (oq : String) (errs : List String) (fb : Bool) :
    SmartShoppingBot.scrape_and_validate_candidates env bot cands oq errs fb =
      (if eligibleForJudgement env cands = [] then .ok [] else .error .typeError) := by
  unfold SmartShoppingBot.scrape_and_validate_candidates
  by_cases hc : cands = []
  · subst hc
    simp [eligibleForJudgement]
  · simp only [hc, if_false]
    cases he : eligibleForJudgement env cands with
    | nil => simp [he, judgeAll_nil]
    | cons c l => simp [he, judgeAll_cons]

/-- The fallback block returns the unchanged empty offer list exactly when
no fallback candidate is eligible for judgement, and otherwise raises. -/
theorem fallbackStep_characterization (env : Env) (bot : SmartShoppingBot)
    (oq : String) (errs : List String) :
    fallbackStep env bot oq errs =
      (if fallbackJudgedList env bot oq = [] then .ok ([], errs)
       else .error .typeError) := by
  unfold fallbackStep fallbackJudgedList
  cases hf : get_fallback_query env oq with
  | none => simp
  | some fq =>
    by_cases hq : fq = ""
    · simp [hq]
    · simp only [hq, if_false]
      rw [scrape_and_validate_characterization]
      by_cases he : eligibleForJudgement env
          (pre_filter_candidates_with_ai env
            (SmartShoppingBot.collect_candidates env bot fq fq) oq) = []
      · simp [he]
      · simp [he]

/-- Complete characterization of `searchBody`: the two early validation
returns; an empty success when neither pass has a judgeable candidate; the
arity `TypeError` otherwise. -/
theorem searchBody_characterization (env : Env) (bot : SmartShoppingBot)
    (query : Option String) (img : Option (List Nat)) :
    searchBody env bot query img =
      (if originalQuery query = "" then
        .ok ([], ["Por favor, introduce un término de búsqueda."])
      else if enhance_query env (originalQuery query) = "" then
        .ok ([], ["No se pudo generar una consulta válida."])
      else if primaryJudgedList env bot (originalQuery query) = [] ∧
          fallbackJudgedList env bot (originalQuery query) = [] then
        .ok ([], [])
      else .error .typeError) := by
  unfold searchBody
  by_cases h1 : originalQuery query = ""
  · simp [h1]
  · simp only [h1, if_false]
    by_cases h2 : enhance_query env (originalQuery query) = ""
    · simp [h2]
    · simp only [h2, if_false]
      rw [scrape_and_validate_characterization]
      by_cases hp : primaryJudgedList env bot (originalQuery query) = []
      · rw [primaryJudgedList] at hp
        simp only [hp, if_true, if_pos rfl]
        rw [fallbackStep_characterization]
        by_cases hf : fallbackJudgedList env bot (originalQuery query) = []
        · simp [hp, hf, primaryJudgedList]
        · simp [hp, hf, primaryJudgedList]
      · rw [primaryJudgedList] at hp
        simp [hp, primaryJudgedList]

/-- Complete characterization of the observable behaviour of `search`. -/
theorem search_characterization (env : Env) (bot : SmartShoppingBot)
    (query : Option String) (img : Option (List Nat)) :
    SmartShoppingBot.search env bot query img =
      (if originalQuery query = "" then
        ([], ["Por favor, introduce un término de búsqueda."])
      else if enhance_query env (originalQuery query) = "" then
        ([], ["No se pudo generar una consulta válida."])
      else if primaryJudgedList env bot (originalQuery query) = [] ∧
          fallbackJudgedList env bot (originalQuery query) = [] then
        ([], [])
      else ([], [serverErrorMsg])) := by
  unfold SmartShoppingBot.search
  rw [searchBody_characterization]
  by_cases h1 : originalQuery query = ""
  · simp [h1]
  · by_cases h2 : enhance_query env (originalQuery query) = ""
    · simp [h1, h2]
    · by_cases h3 : primaryJudgedList env bot (originalQuery query) = [] ∧
          fallbackJudgedList env bot (originalQuery query) = []
      · simp [h1, h2, h3]
      · simp [h1, h2, h3]

/-- Whatever the environment: the offers component of `search` is empty
(the judging `TypeError` makes every accepted-offer path unreachable). -/
theorem search_offers_nil (env : Env) (bot : SmartShoppingBot)
    (query : Option String) (img : Option (List Nat)) :
    (SmartShoppingBot.search env bot query img).1 = [] := by
  rw [search_characterization]
  by_cases h1 : originalQuery query = ""
  · simp [h1]
  · by_cases h2 : enhance_query env (originalQuery query) = ""
    · simp [h1, h2]
    · by_cases h3 : primaryJudgedList env bot (originalQuery query) = [] ∧
          fallbackJudgedList env bot (originalQuery query) = []
      · simp [h1, h2, h3]
      · simp [h1, h2, h3]

/-- Inversion of the acceptance body: an accepted offer passed the
region-fit check and both thresholds, its currency had a listed rate, its
USD price is the judged price times that rate, and it clears the 0.50
floor; the scores and the fallback tag are copied into the offer. -/
theorem processVerdict_some (bot : SmartShoppingBot) (cd : ScrapedData)
    (a : Analysis) (fb : Bool) (o : ProductResult)
    (h : processVerdict bot cd (some a) fb = some o) :
    a.is_usa_centric = true ∧
    bot.RELEVANCE_THRESHOLD ≤ a.relevance_score ∧
    bot.PRICE_ACCURACY_THRESHOLD ≤ a.price_accuracy_score ∧
    ∃ rate, CURRENCY_RATES_TO_USD.lookup (pyUpper a.currency) = some rate ∧
      o.price_in_usd = a.price * rate ∧ (0.50 : ℚ) ≤ o.price_in_usd ∧
      o.relevance_score = a.relevance_score ∧
      o.price_accuracy_score = a.price_accuracy_score ∧
      o.is_alternative_suggestion = fb := by
  unfold processVerdict at h
  dsimp only at h
  by_cases hcond : a.is_usa_centric = true ∧ bot.RELEVANCE_THRESHOLD ≤ a.relevance_score ∧
      bot.PRICE_ACCURACY_THRESHOLD ≤ a.price_accuracy_score
  · rw [if_pos hcond] at h
    cases hl : CURRENCY_RATES_TO_USD.lookup (pyUpper a.currency) with
    | none => rw [hl] at h; exact absurd h (by simp)
    | some rate =>
      rw [hl] at h
      dsimp only at h
      by_cases hz : rate = 0
      · rw [if_pos hz] at h; exact absurd h (by simp)
      · rw [if_neg hz] at h
        by_cases hfl : (0.50 : ℚ) ≤ a.price * rate
        · rw [if_pos hfl] at h
          have ho := Option.some.inj h
          subst ho
          exact ⟨hcond.1, hcond.2.1, hcond.2.2, rate, rfl, rfl, hfl, rfl, rfl, rfl⟩
        · rw [if_neg hfl] at h; exact absurd h (by simp)
  · rw [if_neg hcond] at h; exact absurd h (by simp)

/-- An unknown currency code (no entry in the static table) makes the
acceptance body drop the candidate. -/
theorem processVerdict_unknown_currency (bot : SmartShoppingBot) (cd : ScrapedData)
    (a : Analysis) (fb : Bool)
    (h : CURRENCY_RATES_TO_USD.lookup (pyUpper a.currency) = none) :
    processVerdict bot cd (some a) fb = none := by
  unfold processVerdict
  dsimp only
  by_cases hcond : a.is_usa_centric = true ∧ bot.RELEVANCE_THRESHOLD ≤ a.relevance_score ∧
      bot.PRICE_ACCURACY_THRESHOLD ≤ a.price_accuracy_score
  · rw [if_pos hcond, h]
  · rw [if_neg hcond]

/-- The URLs produced by `dedupByUrl` are pairwise distinct and avoid the
already-seen set. -/
theorem dedupByUrl_nodup (l : List SearchCandidate) (seen : List String) :
    ((dedupByUrl l seen).map (fun c => c.url)).Nodup ∧
      ∀ c ∈ dedupByUrl l seen, c.url ∉ seen := by
  induction l generalizing seen with
  | nil => simp [dedupByUrl]
  | cons p rest ih =>
    by_cases hp : p.url ∈ seen
    · have := ih seen
      simp only [dedupByUrl, if_pos hp]
      exact this
    · simp only [dedupByUrl, if_neg hp]
      obtain ⟨hnd, havoid⟩ := ih (p.url :: seen)
      refine ⟨?_, ?_⟩
      · simp only [List.map_cons, List.nodup_cons]
        refine ⟨?_, hnd⟩
        intro hmem
        obtain ⟨c, hc, hcu⟩ := List.mem_map.mp hmem
        exact havoid c hc (hcu ▸ List.mem_cons_self _ _)
      · intro c hc
        rcases List.mem_cons.mp hc with rfl | hc2
        · exact hp
        · intro hcs
          exact havoid c hc2 (List.mem_cons_of_mem _ hcs)

/-- `_collect_candidates` returns URL-distinct candidates. -/
theorem collect_candidates_nodup (env : Env) (bot : SmartShoppingBot)
    (base_query original_query : String) :
    ((SmartShoppingBot.collect_candidates env bot base_query original_query).map
      (fun c => c.url)).Nodup := by
  unfold SmartShoppingBot.collect_candidates
  exact (dedupByUrl_nodup _ []).1

/-- The price-ascending comparison used by the final sort. -/
def priceLe (a b : ProductResult) : Prop := a.price_in_usd ≤ b.price_in_usd

instance : DecidablePred fun p : ProductResult × ProductResult => priceLe p.1 p.2 :=
  fun p => inferInstanceAs (Decidable (p.1.price_in_usd ≤ p.2.price_in_usd))

theorem mem_insertByPrice (p x : ProductResult) (l : List ProductResult) :
    x ∈ insertByPrice p l ↔ x = p ∨ x ∈ l := by
  induction l with
  | nil => simp [insertByPrice]
  | cons q rest ih =>
    by_cases hq : q.price_in_usd ≤ p.price_in_usd
    · rw [insertByPrice, if_pos hq]
      rw [List.mem_cons, ih, List.mem_cons]
      tauto
    · rw [insertByPrice, if_neg hq]
      rw [List.mem_cons, List.mem_cons]

theorem pairwise_insertByPrice (p : ProductResult) (l : List ProductResult)
    (h : l.Pairwise priceLe) : (insertByPrice p l).Pairwise priceLe := by
  induction l with
  | nil => simp [insertByPrice]
  | cons q rest ih =>
    rw [List.pairwise_cons] at h
    obtain ⟨hq, hrest⟩ := h
    by_cases hle : q.price_in_usd ≤ p.price_in_usd
    · simp only [insertByPrice, if_pos hle]
      rw [List.pairwise_cons]
      refine ⟨?_, ih hrest⟩
      intro x hx
      rcases (mem_insertByPrice p x rest).mp hx with hxp | hxr
      · subst hxp; exact hle
      · exact hq x hxr
    · simp only [insertByPrice, if_neg hle]
      rw [List.pairwise_cons]
      refine ⟨?_, ?_⟩
      · intro x hx
        rcases List.mem_cons.mp hx with rfl | hx2
        · exact le_of_not_le hle
        · exact le_trans (le_of_not_le hle) (hq x hx2)
      · rw [List.pairwise_cons]
        exact ⟨hq, hrest⟩

/-- The stable sort modelling `final_results.sort(key=...)` produces a
price-ascending list. -/
theorem sortByPrice_pairwise (l : List ProductResult) :
    (sortByPrice l).Pairwise priceLe := by
  induction l with
  | nil => simp [sortByPrice]
  | cons p rest ih => exact pairwise_insertByPrice p (sortByPrice rest) ih

/-!
Concrete environments used by witnesses, counterexamples and evaluation
theorems.
-/

/-- Page text comfortably longer than the 50-character judging bar. -/
def longText : String :=
  "This is a long product page text used to test the judging phase of the bot."

/-- One raw search hit pointing at a product page. -/
def hitA : RawHit := { link := "http://x.com/p", title := "Red Shoes", snippet := "red" }

/-- Gemini configured; enhancement/pre-filter calls raise (so they pass
through); every search returns `hitA`; every page scrapes to long text.  Any
run that reaches the pipeline therefore enters the judging phase. -/
def envA : Env :=
  { genai := true
    enhanceCall := fun _ => .error ()
    fallbackCall := fun _ => .error ()
    prefilterCall := fun _ _ => .error ()
    searchCall := fun _ _ _ => .ok [hitA]
    scrapeCall := fun _ =>
      some { title := "Red Shoes Product Page", image := "", text_content := longText }
    judgeCall := fun _ _ => .error () }

/-- Gemini missing and every search empty: the run finds no candidates and
produces no warnings. -/
def envB : Env :=
  { genai := false
    enhanceCall := fun _ => .error ()
    fallbackCall := fun _ => .error ()
    prefilterCall := fun _ _ => .error ()
    searchCall := fun _ _ _ => .ok []
    scrapeCall := fun _ => none
    judgeCall := fun _ _ => .error () }

/-- Primary search finds nothing, the fallback query "industrial widget"
finds a scrapable candidate: the fallback pass enters the judging phase. -/
def envC : Env :=
  { genai := true
    enhanceCall := fun _ => .error ()
    fallbackCall := fun _ => .ok "industrial widget"
    prefilterCall := fun _ _ => .error ()
    searchCall := fun q _ _ =>
      if q = "industrial widget" then
        .ok [{ link := "http://widgets.example.com/item",
               title := "Industrial Widget", snippet := "widget" }]
      else .ok []
    scrapeCall := fun _ =>
      some { title := "Industrial Widget Page", image := "", text_content := longText }
    judgeCall := fun _ _ => .error () }

/-- Gemini configured but the enhancement call fails, and every search is
empty: enhancement failure leaves no trace in the warnings. -/
def envD : Env :=
  { genai := true
    enhanceCall := fun _ => .error ()
    fallbackCall := fun _ => .error ()
    prefilterCall := fun _ _ => .error ()
    searchCall := fun _ _ _ => .ok []
    scrapeCall := fun _ => none
    judgeCall := fun _ _ => .error () }

/-- A bot with the configuration hardcoded in `__init__`. -/
def botX : SmartShoppingBot := SmartShoppingBot.make "test-key"

/-!
Claim theorems.
-/

/-- C1: for every environment and input, `search` returns a well-formed
`(offers, warnings)` pair (the function is total, so it never raises to the
caller): either the pipeline body succeeded and the pair is its value, or
the body raised and the outermost handler converts the exception into an
empty offers list plus the single generic server-error warning. -/
theorem claim1_search_never_raises_boundary (env : Env) (bot : SmartShoppingBot)
    (query : Option String) (img : Option (List Nat)) :
    (∃ r, searchBody env bot query img = .ok r ∧
      SmartShoppingBot.search env bot query img = r) ∨
    (∃ e, searchBody env bot query img = .error e ∧
      SmartShoppingBot.search env bot query img = ([], [serverErrorMsg])) := by
  cases h : searchBody env bot query img with
  | ok r =>
    refine .inl ⟨r, rfl, ?_⟩
    unfold SmartShoppingBot.search
    rw [h]
  | error e =>
    refine .inr ⟨e, rfl, ?_⟩
    unfold SmartShoppingBot.search
    rw [h]

/-- C2: whenever the judgment phase is actually entered (the pipeline passes
input validation and some pass has a scraped candidate with usable text
longer than 50 characters), the three-argument submission of the
two-parameter `_get_ai_analysis` raises `TypeError`, which is only caught at
the outermost boundary of `search`; the call therefore returns the empty
offers list paired with exactly the single generic server-error warning and
can never return a non-empty offers list. -/
theorem claim2_judged_candidate_causes_server_error (env : Env)
    (bot : SmartShoppingBot) (query : Option String) (img : Option (List Nat))
    (hq : originalQuery query ≠ "")
    (he : enhance_query env (originalQuery query) ≠ "")
    (hj : ¬ (primaryJudgedList env bot (originalQuery query) = [] ∧
             fallbackJudgedList env bot (originalQuery query) = [])) :
    SmartShoppingBot.search env bot query img = ([], [serverErrorMsg]) := by
  rw [search_characterization]
  rw [if_neg hq, if_neg he, if_neg hj]

/-- Witness for C2 at the concrete environment `envA`, whose single
candidate scrapes to 75 characters of text and so enters judgment. -/
theorem claim2_witness :
    originalQuery (some "red shoes") ≠ "" ∧
    enhance_query envA (originalQuery (some "red shoes")) ≠ "" ∧
    ¬ (primaryJudgedList envA botX (originalQuery (some "red shoes")) = [] ∧
       fallbackJudgedList envA botX (originalQuery (some "red shoes")) = []) ∧
    SmartShoppingBot.search envA botX (some "red shoes") none = ([], [serverErrorMsg]) :=
  ⟨by decide, by decide, by decide,
   claim2_judged_candidate_causes_server_error envA botX (some "red shoes") none
     (by decide) (by decide) (by decide)⟩

/-- C3 (code-bug evaluation): with Gemini unavailable and every search
returning no hits, `search "zapatos"` returns empty offers together with an
EMPTY warnings list, violating the graceful-empty invariant the claim
states. -/
theorem claim3_empty_offers_empty_warnings :
    SmartShoppingBot.search envB botX (some "zapatos") none = ([], []) := by decide

/-- C4 counterexample: with both inputs absent, `search` does NOT return
immediately with a warning — in `envB` it returns no warning at all, and in
`envA` the warning is the server-error message produced by the judging
phase, so later pipeline stages did run (the outcome depends on the
environment). -/
theorem claim4_counterexample :
    SmartShoppingBot.search envB botX none none = ([], []) ∧
    SmartShoppingBot.search envA botX none none = ([], [serverErrorMsg]) ∧
    serverErrorMsg ≠ "Por favor, introduce un término de búsqueda." :=
  ⟨by decide, by decide, by decide⟩

/-- C4 (amended): only a present but whitespace-only query triggers the
immediate empty return with the input-validation warning; the result is
independent of the environment, so no later pipeline stage is consulted.
(An absent or empty-string query is instead replaced by the sentinel
"product from image" and the full pipeline runs.) -/
theorem claim4_blank_query_early_return (env : Env) (bot : SmartShoppingBot)
    (s : String) (img : Option (List Nat))
    (hne : s ≠ "") (hblank : pyStrip s = "") :
    SmartShoppingBot.search env bot (some s) img =
      ([], ["Por favor, introduce un término de búsqueda."]) := by
  rw [search_characterization]
  have hoq : originalQuery (some s) = "" := by
    unfold originalQuery
    dsimp only
    rw [if_neg hne]
    exact hblank
  rw [if_pos hoq]

/-- Witness for C4's amended theorem at the one-space query. -/
theorem claim4_witness :
    " " ≠ "" ∧ pyStrip " " = "" ∧
    SmartShoppingBot.search envA botX (some " ") none =
      ([], ["Por favor, introduce un término de búsqueda."]) :=
  ⟨by decide, by decide,
   claim4_blank_query_early_return envA botX " " none (by decide) (by decide)⟩

/-- C5: every offer in the list returned by `search` passes the acceptance
filter — the first conjunct states it for the returned list itself, the
second states that the acceptance body only ever emits an offer whose
verdict was region-fit and whose scores and 0.50-floored USD price meet the
configured thresholds. -/
theorem claim5_offer_thresholds :
    (∀ (env : Env) (key : String) (query : Option String) (img : Option (List Nat)),
      ((SmartShoppingBot.search env (SmartShoppingBot.make key) query img).1).all
        (fun o => decide (5 ≤ o.relevance_score) && decide (6 ≤ o.price_accuracy_score) &&
          decide ((0.50 : ℚ) ≤ o.price_in_usd)) = true) ∧
    (∀ (bot : SmartShoppingBot) (cd : ScrapedData) (a : Analysis) (fb : Bool)
        (o : ProductResult),
      processVerdict bot cd (some a) fb = some o →
        a.is_usa_centric = true ∧ bot.RELEVANCE_THRESHOLD ≤ o.relevance_score ∧
        bot.PRICE_ACCURACY_THRESHOLD ≤ o.price_accuracy_score ∧
        (0.50 : ℚ) ≤ o.price_in_usd) := by
  constructor
  · intro env key query img
    rw [search_offers_nil]
    rfl
  · intro bot cd a fb o h
    obtain ⟨husa, hrel, hacc, rate, _hl, _hp, hfl, hrel2, hacc2, _hfb⟩ :=
      processVerdict_some bot cd a fb o h
    refine ⟨husa, ?_, ?_, hfl⟩
    · rw [hrel2]; exact hrel
    · rw [hacc2]; exact hacc

/-- The scraped data of `envA`'s candidate, used by concrete witnesses. -/
def cdX : ScrapedData :=
  { title := "Red Shoes Product Page", image := "", text_content := longText,
    url := "http://x.com/p" }

/-- An accepted verdict priced 10.0 EUR. -/
def aEUR : Analysis :=
  { price := 10.0, currency := "EUR", relevance_score := 9, price_accuracy_score := 9,
    is_usa_centric := true, reasoning := "good match" }

/-- A verdict with a currency code absent from the static table. -/
def aXYZ : Analysis :=
  { price := 10.0, currency := "XYZ", relevance_score := 9, price_accuracy_score := 9,
    is_usa_centric := true, reasoning := "unknown currency" }

/-- The offer the acceptance body builds from `cdX` and `aEUR`. -/
def oEUR : ProductResult :=
  { name := "Red Shoes Product Page", store := "X", url := "http://x.com/p",
    image_url := "", price_in_usd := 10.80, original_price := 10.0,
    original_currency := "EUR", relevance_score := 9, price_accuracy_score := 9,
    reasoning := "good match", is_alternative_suggestion := false }

/-- Concrete evaluation of the acceptance body: `cdX` with the 10.0 EUR
verdict `aEUR` is accepted as `oEUR` (10.0 × 1.08 = 10.80 USD). -/
theorem processVerdict_eval : processVerdict botX cdX (some aEUR) false = some oEUR := by
  unfold processVerdict
  dsimp only
  rw [if_pos (show aEUR.is_usa_centric = true ∧
      botX.RELEVANCE_THRESHOLD ≤ aEUR.relevance_score ∧
      botX.PRICE_ACCURACY_THRESHOLD ≤ aEUR.price_accuracy_score from by decide)]
  rw [show CURRENCY_RATES_TO_USD.lookup (pyUpper aEUR.currency) = some (1.08 : ℚ) from rfl]
  dsimp only
  rw [if_neg (show ¬ ((1.08 : ℚ) = 0) from by norm_num)]
  rw [if_pos (show (0.50 : ℚ) ≤ aEUR.price * (1.08 : ℚ) from by norm_num [aEUR])]
  have hst : storeOf cdX.url = "X" := by decide
  have hcur : pyUpper aEUR.currency = "EUR" := by decide
  have hpr : aEUR.price * (1.08 : ℚ) = 10.80 := by norm_num [aEUR]
  rw [hst, hcur, hpr]
  dsimp only [cdX, aEUR, oEUR]

/-- Witness for C5 at a concretely accepted verdict. -/
theorem claim5_witness :
    processVerdict botX cdX (some aEUR) false = some oEUR ∧
    (aEUR.is_usa_centric = true ∧ botX.RELEVANCE_THRESHOLD ≤ oEUR.relevance_score ∧
      botX.PRICE_ACCURACY_THRESHOLD ≤ oEUR.price_accuracy_score ∧
      (0.50 : ℚ) ≤ oEUR.price_in_usd) :=
  ⟨processVerdict_eval, claim5_offer_thresholds.2 botX cdX aEUR false oEUR processVerdict_eval⟩

/-- C6: the accepted USD price is always the judged price times the static
table rate of the verdict's currency; a verdict of 10.0 EUR at rate 1.08
yields exactly 10.80; and any currency code absent from the table makes the
acceptance body drop the candidate instead of assuming a 1:1 rate. -/
theorem claim6_currency_normalization :
    (∀ (bot : SmartShoppingBot) (cd : ScrapedData) (a : Analysis) (fb : Bool)
        (o : ProductResult),
      processVerdict bot cd (some a) fb = some o →
        ∃ rate, CURRENCY_RATES_TO_USD.lookup (pyUpper a.currency) = some rate ∧
          o.price_in_usd = a.price * rate) ∧
    (processVerdict botX cdX (some aEUR) false).map (fun o => o.price_in_usd) =
      some (10.80 : ℚ) ∧
    (∀ (bot : SmartShoppingBot) (cd : ScrapedData) (a : Analysis) (fb : Bool),
      CURRENCY_RATES_TO_USD.lookup (pyUpper a.currency) = none →
        processVerdict bot cd (some a) fb = none) := by
  refine ⟨?_, ?_, ?_⟩
  · intro bot cd a fb o h
    obtain ⟨_, _, _, rate, hl, hp, _⟩ := processVerdict_some bot cd a fb o h
    exact ⟨rate, hl, hp⟩
  · rw [processVerdict_eval]
    rfl
  · intro bot cd a fb h
    exact processVerdict_unknown_currency bot cd a fb h

/-- Witness for C6: the EUR conversion instantiates the multiplication
conjunct, and the `"XYZ"` verdict instantiates the unknown-currency drop. -/
theorem claim6_witness :
    (∃ rate, CURRENCY_RATES_TO_USD.lookup (pyUpper aEUR.currency) = some rate ∧
      oEUR.price_in_usd = aEUR.price * rate) ∧
    processVerdict botX cdX (some aXYZ) false = none :=
  ⟨claim6_currency_normalization.1 botX cdX aEUR false oEUR processVerdict_eval,
   claim6_currency_normalization.2.2 botX cdX aXYZ false rfl⟩

/-- C7: candidates are deduplicated by exact URL before any fetching —
`_collect_candidates` always returns URL-distinct candidates — and the final
offers list of `search` contains at most one entry per URL. -/
theorem claim7_dedup_invariant :
    (∀ (env : Env) (bot : SmartShoppingBot) (base_query original_query : String),
      ((SmartShoppingBot.collect_candidates env bot base_query original_query).map
        (fun c => c.url)).Nodup) ∧
    (∀ (env : Env) (bot : SmartShoppingBot) (query : Option String)
        (img : Option (List Nat)),
      ((SmartShoppingBot.search env bot query img).1.map (fun o => o.url)).Nodup) := by
  constructor
  · exact collect_candidates_nodup
  · intro env bot query img
    rw [search_offers_nil]
    simp

/-- C8: the offers list returned by `search` is price-ascending and never
longer than the configured maximum of 30; the embedded sort itself always
produces a price-ascending list, and the `[:MAX_RESULTS_TO_RETURN]`
truncation bounds any list at 30. -/
theorem claim8_sorted_and_bounded :
    (∀ (env : Env) (key : String) (query : Option String) (img : Option (List Nat)),
      ((SmartShoppingBot.search env (SmartShoppingBot.make key) query img).1).Pairwise
          priceLe ∧
        (SmartShoppingBot.search env (SmartShoppingBot.make key) query img).1.length ≤ 30) ∧
    (∀ l : List ProductResult, (sortByPrice l).Pairwise priceLe) ∧
    (∀ (key : String) (l : List ProductResult),
      ((sortByPrice l).take (SmartShoppingBot.make key).MAX_RESULTS_TO_RETURN).length
        ≤ 30) := by
  refine ⟨?_, sortByPrice_pairwise, ?_⟩
  · intro env key query img
    rw [search_offers_nil]
    exact ⟨List.Pairwise.nil, by simp⟩
  · intro key l
    have hmax : (SmartShoppingBot.make key).MAX_RESULTS_TO_RETURN = 30 := rfl
    rw [hmax, List.length_take]
    exact min_le_left _ _

/-- C9 (code-bug evaluation): in an environment where the primary pass
accepts nothing and the fallback query finds a judgeable candidate, the
fallback pass raises the arity `TypeError` instead of producing tagged
offers, so `search` returns the generic server-error pair. -/
theorem claim9_fallback_unreachable :
    SmartShoppingBot.search envC botX (some "widget") none = ([], [serverErrorMsg]) := by
  decide

/-- C10 counterexample: the enhancement judge fails in `envD`, the original
query passes through unchanged, yet the whole `search` call ends with an
EMPTY warnings list — no user-visible warning is recorded anywhere. -/
theorem claim10_counterexample :
    envD.enhanceCall "shoes" = .error () ∧
    enhance_query envD "shoes" = "shoes" ∧
    SmartShoppingBot.search envD botX (some "shoes") none = ([], []) :=
  ⟨rfl, by decide, by decide⟩

/-- C10 (amended): a failure of the external judge during query enhancement
is non-fatal — `_enhance_query` returns the original query unchanged and
never raises — but it records no warning (no errors list is threaded into
the enhancement call). -/
theorem claim10_enhance_failure_passthrough (env : Env) (text : String)
    (h : env.enhanceCall text = .error ()) : enhance_query env text = text := by
  unfold enhance_query
  by_cases hg : ¬ env.genai ∨ text = ""
  · rw [if_pos hg]
  · rw [if_neg hg, h]

/-- Witness for C10's amended theorem at `envD`. -/
theorem claim10_witness :
    envD.enhanceCall "red shoes" = .error () ∧
    enhance_query envD "red shoes" = "red shoes" :=
  ⟨rfl, claim10_enhance_failure_passthrough envD "red shoes" rfl⟩
